import Mathlib

/-!
Shallow embedding of
`contrib/experimental/great_expectations_experimental/expectations/expect_queried_columns_to_match_logical_expression.py`
(the `ExpectQueriedColumnsToMatchLogicalExpression` query expectation),
together with theorems settling the specification claims about it.

Python dynamic values are modelled by `PyVal`; Python exceptions that the
embedded code can raise are modelled by `PyErr`; fallible Python code is
embedded as functions into `Except PyErr _`.
-/

namespace GX

/-- Model of the Python values flowing through the expectation: `None`,
booleans, integers, strings, lists/tuples and string-keyed dicts
(a dict is an association list, in insertion order, keys unique). -/
inductive PyVal where
  | none : PyVal
  | bool : Bool → PyVal
  | int : Int → PyVal
  | str : String → PyVal
  | list : List PyVal → PyVal
  | dict : List (String × PyVal) → PyVal

/-- Model of the Python exceptions the embedded code can raise:
`TypeError` (subscripting / truth-testing a value of the wrong type),
`KeyError` (missing dict key), `IndexError` (sequence index out of range),
`AttributeError` (calling `.values()` / `.get()` on a non-dict), and the
framework's `InvalidExpectationConfigurationError` carrying its message. -/
inductive PyErr where
  | typeError : PyErr
  | keyError : String → PyErr
  | indexError : PyErr
  | attributeError : PyErr
  | invalidExpectationConfigurationError : String → PyErr
deriving DecidableEq, Repr

/-- Python `d.get(k)` on a dict: the stored value, or `None` when absent. -/
def dictGet (d : List (String × PyVal)) (k : String) : PyVal :=
  match d.lookup k with
  | some v => v
  | Option.none => PyVal.none

/-- Python `v.get(k)` where `v` must be a dict: `AttributeError` otherwise. -/
def pyGet (v : PyVal) (k : String) : Except PyErr PyVal :=
  match v with
  | PyVal.dict d => Except.ok (dictGet d k)
  | _ => Except.error PyErr.attributeError

/-- Python `v[k]` for a string key `k`: on a dict, the value or `KeyError`;
on anything else (in particular `None`), a `TypeError`. -/
def pySubscript (v : PyVal) (k : String) : Except PyErr PyVal :=
  match v with
  | PyVal.dict d =>
    match d.lookup k with
    | some x => Except.ok x
    | Option.none => Except.error (PyErr.keyError k)
  | _ => Except.error PyErr.typeError

/-- Python `v[0]`: first element of a list/tuple (or `IndexError` when
empty), first character of a string, `KeyError` on a string-keyed dict,
`TypeError` on anything else. -/
def pyIndexZero (v : PyVal) : Except PyErr PyVal :=
  match v with
  | PyVal.list (x :: _) => Except.ok x
  | PyVal.list [] => Except.error PyErr.indexError
  | PyVal.str s =>
    match s.data with
    | c :: _ => Except.ok (PyVal.str (String.mk [c]))
    | [] => Except.error PyErr.indexError
  | PyVal.dict _ => Except.error (PyErr.keyError "0")
  | _ => Except.error PyErr.typeError

/-- Python `v.values()` (then materialised by `list(...)`): the dict's
values in order; `AttributeError` on a non-dict. -/
def pyValues (v : PyVal) : Except PyErr (List PyVal) :=
  match v with
  | PyVal.dict d => Except.ok (d.map Prod.snd)
  | _ => Except.error PyErr.attributeError

mutual

/-- Python `repr(v)` for the modelled values. -/
def pyRepr : PyVal → String
  | PyVal.none => "None"
  | PyVal.bool b => if b then "True" else "False"
  | PyVal.int i => toString i
  | PyVal.str s => "\x27" ++ s ++ "\x27"
  | PyVal.list xs => "[" ++ String.intercalate ", " (pyReprList xs) ++ "]"
  | PyVal.dict ps =>
    "\x7b" ++ String.intercalate ", " (pyReprPairs ps) ++ "\x7d"

/-- `repr` of each element of a Python list. -/
def pyReprList : List PyVal → List String
  | [] => []
  | x :: xs => pyRepr x :: pyReprList xs

/-- `repr` of each `key: value` entry of a Python dict. -/
def pyReprPairs : List (String × PyVal) → List String
  | [] => []
  | (k, v) :: ps => ("\x27" ++ k ++ "\x27: " ++ pyRepr v) :: pyReprPairs ps

end

/-- Python `str(v)` (what an f-string interpolation produces): identical
to `repr` except that a string is rendered without quotes. -/
def pyStr (v : PyVal) : String :=
  match v with
  | PyVal.none => "None"
  | PyVal.bool b => if b then "True" else "False"
  | PyVal.int i => toString i
  | PyVal.str s => s
  | v => pyRepr v

/-- Python `v == 0` for the modelled values: integer comparison, with the
numeric coercion `False == 0`/`True == 1`; every non-numeric value
compares unequal to `0`. -/
def pyEqZero (v : PyVal) : Bool :=
  match v with
  | PyVal.int i => i == 0
  | PyVal.bool b => b == false
  | _ => false

/-- Python truthiness `bool(v)` for the modelled values. -/
def pyTruthy (v : PyVal) : Bool :=
  match v with
  | PyVal.none => false
  | PyVal.bool b => b
  | PyVal.int i => i != 0
  | PyVal.str s => s != ""
  | PyVal.list xs => !xs.isEmpty
  | PyVal.dict ps => !ps.isEmpty

/-- The validation outcome dict
`{'success': ..., 'result': {'info': ..., 'observed_value': ...}}`
returned by `_validate`. -/
structure ValidationResult where
  success : Bool
  info : String
  observed_value : String
deriving DecidableEq, Repr

/-- `list(metrics.get('query.template_values')[0].values())[0]`:
the scalar count extraction at the top of `_validate`. -/
def extractCount (metrics : List (String × PyVal)) : Except PyErr PyVal := do
  let v := dictGet metrics "query.template_values"
  let first ← pyIndexZero v
  let vals ← pyValues first
  pyIndexZero (PyVal.list vals)

/-- The branch of `_validate` on the extracted `query_count_result`:
`== 0` gives the success dict with the fixed observed value, anything
else the failure dict embedding `f'bad records count: ...'`. -/
def validateResultOf (count : PyVal) : ValidationResult :=
  if pyEqZero count then
    { success := true
      info := "The table matches the logical expression"
      observed_value := "matches logical expression" }
  else
    { success := false
      info := "The table does not match the logical expression"
      observed_value := "bad records count: " ++ pyStr count }

/-- `ExpectQueriedColumnsToMatchLogicalExpression._validate`: extracts the
scalar from the metrics mapping and branches on it.  The `configuration`,
`runtime_configuration` and `execution_engine` parameters are accepted and
ignored, exactly as in the source. -/
def «_validate» (configuration : PyVal) (metrics : List (String × PyVal))
    (runtime_configuration : PyVal) (execution_engine : PyVal) :
    Except PyErr ValidationResult := do
  let count ← extractCount metrics
  pure (validateResultOf count)

/-- `Expectation.is_config_none(v)`-style check: is the value Python `None`? -/
def isNone : PyVal → Bool
  | PyVal.none => true
  | _ => false

/-- `isinstance(v, str) and len(v) > 0`: the type-and-emptiness assertion
used by `validate_configuration`. -/
def isNonemptyStr : PyVal → Bool
  | PyVal.str s => s.length > 0
  | _ => false

/-- The class-level `query` template of
`ExpectQueriedColumnsToMatchLogicalExpression`, byte for byte (a Python
triple-quoted string with its original newlines and indentation). -/
def query : String :=
  " SELECT COUNT(*)\n                    FROM (SELECT {column_list}\n                    FROM {active_batch} a\n                    WHERE not ({expression})) b\n                "

/-- The class-level `default_kwarg_values` dict, in source order. -/
def default_kwarg_values : List (String × PyVal) :=
  [("result_format", PyVal.str "BASIC"),
   ("include_config", PyVal.bool true),
   ("catch_exceptions", PyVal.bool false),
   ("meta", PyVal.none),
   ("template_dict", PyVal.none),
   ("expression", PyVal.none),
   ("query", PyVal.str query)]

/-- `ExpectQueriedColumnsToMatchLogicalExpression.validate_configuration`,
applied to a configuration value (`configuration['kwargs']` is looked up,
then `.get('template_dict')` is subscripted for each field — outside any
`try` — and the four `assert`s run inside a `try` whose handler re-raises
an `InvalidExpectationConfigurationError` with the assertion message).
The call to the framework's `super().validate_configuration` (external
code, assumed to return normally) is not modelled. -/
def validate_configuration (configuration : PyVal) : Except PyErr Unit := do
  let kwargs ← pySubscript configuration "kwargs"
  let td1 ← pyGet kwargs "template_dict"
  let column_list ← pySubscript td1 "column_list"
  let td2 ← pyGet kwargs "template_dict"
  let expression ← pySubscript td2 "expression"
  if isNone column_list then
    Except.error (PyErr.invalidExpectationConfigurationError "column list must be specified")
  else if isNone expression then
    Except.error (PyErr.invalidExpectationConfigurationError "logical expression must be specified")
  else if !(isNonemptyStr column_list) then
    Except.error (PyErr.invalidExpectationConfigurationError "column list must be string")
  else if !(isNonemptyStr expression) then
    Except.error (PyErr.invalidExpectationConfigurationError "logical expression must be a string")
  else pure ()

/-- One step of Python `str.format` scanning: the first component is
`none` outside a placeholder and `some acc` inside one (`acc` the name
read so far); on `\x7b` a placeholder starts, on `\x7d` it ends and the
substitution for the collected name is spliced in. -/
def pyFormatGo (subst : String → String) : Option (List Char) → List Char → List Char
  | Option.none, [] => []
  | Option.none, c :: rest =>
    if c = '\x7b' then pyFormatGo subst (some []) rest
    else c :: pyFormatGo subst Option.none rest
  | some _, [] => []
  | some acc, c :: rest =>
    if c = '\x7d' then (subst (String.mk acc)).data ++ pyFormatGo subst Option.none rest
    else pyFormatGo subst (some (acc ++ [c])) rest

/-- Python `template.format(...)` with named placeholders, for templates
without escaped or nested braces (the fixed `query` template has none). -/
def pyFormat (template : String) (subst : String → String) : String :=
  String.mk (pyFormatGo subst Option.none template.data)

/-- Modelled from the spec: the Build-query operation.  The hosting
framework's metric provider (code of this repository not under `src/`)
instantiates the class-level `query` template by Python `str.format`,
substituting `column_list` and `expression` from `template_dict` and the
batch reference for `active_batch`.  An unknown placeholder name would
raise `KeyError` in Python; the fixed template contains only the three
known names, so that branch is never taken here. -/
def buildQuery (column_list expression active_batch : String) : String :=
  pyFormat query (fun name =>
    if name = "column_list" then column_list
    else if name = "active_batch" then active_batch
    else if name = "expression" then expression
    else name)

/-- Split a character list at whitespace characters (the separators are
dropped; empty fragments are kept, to be filtered by the caller). -/
def splitWs : List Char → List (List Char)
  | [] => [[]]
  | c :: rest =>
    match splitWs rest with
    | ws :: tail =>
      if c.isWhitespace then [] :: ws :: tail
      else (c :: ws) :: tail
    | [] => [[]]

/-- Whitespace normalisation used to compare the template with the SQL
shape stated by the spec: split on whitespace, drop empty fragments,
rejoin with single spaces. -/
def normalizeWs (s : String) : String :=
  String.intercalate " " (((splitWs s.data).filter (fun t => t ≠ [])).map String.mk)

/-- The `string_template` payload of a rendered content block. -/
structure StringTemplate where
  template : String
  params : List (String × PyVal)
  styling : PyVal

/-- `RenderedStringTemplateContent`, restricted to the fields this
expectation's renderer populates. -/
structure RenderedStringTemplateContent where
  content_block_type : String
  string_template : StringTemplate

/-- Modelled from the spec: the framework helper
`substitute_none_for_missing` (code of this repository not under `src/`)
returns the configuration kwargs with each requested key that is absent
filled in as `None`. -/
def substitute_none_for_missing (kwargs : List (String × PyVal))
    (kwarg_list : List String) : List (String × PyVal) :=
  kwargs ++
    (kwarg_list.filter (fun k => (kwargs.lookup k).isNone)).map
      (fun k => (k, PyVal.none))

/-- `ExpectQueriedColumnsToMatchLogicalExpression._prescriptive_renderer`,
taking the configuration's kwargs dict and the `runtime_configuration`
argument (`runtime_configuration or {}` is Python truthiness; `styling`
is read with `.get`; the template string is the f-string
`expect table to match the expression ... ` built from
`params.get("template_dict")["expression"]`). -/
def «_prescriptive_renderer» (configuration_kwargs : List (String × PyVal))
    (runtime_configuration : PyVal) :
    Except PyErr (List RenderedStringTemplateContent) := do
  let rc := if pyTruthy runtime_configuration then runtime_configuration else PyVal.dict []
  let styling ← pyGet rc "styling"
  let params := substitute_none_for_missing configuration_kwargs ["template_dict"]
  let e ← pySubscript (dictGet params "template_dict") "expression"
  let template_str := "expect table to match the expression " ++ pyStr e ++ " "
  pure [{ content_block_type := "string_template"
          string_template :=
            { template := template_str, params := params, styling := styling } }]

/-- The spec's listing of the default configuration values, verbatim:
`result_format = "BASIC"`, `include_config = true`,
`catch_exceptions = false`, `meta = null`, `template_dict = null`,
`expression = null` — and nothing else.  Written from the spec's words,
to be compared with `default_kwarg_values` from the source. -/
def specDefaultKwargValues : List (String × PyVal) :=
  [("result_format", PyVal.str "BASIC"),
   ("include_config", PyVal.bool true),
   ("catch_exceptions", PyVal.bool false),
   ("meta", PyVal.none),
   ("template_dict", PyVal.none),
   ("expression", PyVal.none)]

end GX

open GX

set_option maxRecDepth 100000 in
/-- Substituting into the fixed template yields the template's literal
segments with the three inputs spliced in verbatim. -/
theorem buildQuery_segments (c e b : String) :
    buildQuery c e b =
      " SELECT COUNT(*)\n                    FROM (SELECT " ++
        (c ++ ("\n                    FROM " ++
          (b ++ (" a\n                    WHERE not (" ++
            (e ++ ")) b\n                "))))) := rfl

/-- C4: Build-query is a deterministic pure function of `column_list`,
`expression` and the batch reference: two invocations with the same three
inputs produce byte-for-byte identical SQL text, obtained by substituting
the inputs into the one fixed class-level template string. -/
theorem C4_buildQuery_deterministic (c₁ c₂ e₁ e₂ b₁ b₂ : String)
    (hc : c₁ = c₂) (he : e₁ = e₂) (hb : b₁ = b₂) :
    buildQuery c₁ e₁ b₁ = buildQuery c₂ e₂ b₂ ∧
    buildQuery c₁ e₁ b₁ = pyFormat query (fun name =>
      if name = "column_list" then c₁
      else if name = "active_batch" then b₁
      else if name = "expression" then e₁
      else name) := by
  subst hc; subst he; subst hb
  exact ⟨rfl, rfl⟩

/-- C4 witness: determinism evaluated at a concrete input. -/
theorem C4_buildQuery_deterministic_witness :
    buildQuery "col1,col2" "col1>0" "t" = buildQuery "col1,col2" "col1>0" "t" ∧
    buildQuery "col1,col2" "col1>0" "t" = pyFormat query (fun name =>
      if name = "column_list" then "col1,col2"
      else if name = "active_batch" then "t"
      else if name = "expression" then "col1>0"
      else name) :=
  C4_buildQuery_deterministic "col1,col2" "col1,col2" "col1>0" "col1>0" "t" "t" rfl rfl rfl

set_option maxRecDepth 100000 in
/-- C5: the fixed query template, normalised for whitespace, is exactly
the SQL shape
`SELECT COUNT(*) FROM (SELECT {column_list} FROM {active_batch} a WHERE not ({expression})) b`,
and for every configuration the column list, batch reference and
expression are inserted verbatim between the template's fixed segments —
no escaping or quoting is performed. -/
theorem C5_template_shape_and_verbatim (c e b : String) :
    normalizeWs query =
      "SELECT COUNT(*) FROM (SELECT {column_list} FROM {active_batch} a WHERE not ({expression})) b" ∧
    buildQuery c e b =
      " SELECT COUNT(*)\n                    FROM (SELECT " ++
        (c ++ ("\n                    FROM " ++
          (b ++ (" a\n                    WHERE not (" ++
            (e ++ ")) b\n                "))))) :=
  ⟨rfl, buildQuery_segments c e b⟩

/-- C6: Evaluate is idempotent and stateless.  `_validate` is embedded as
a pure function of its four arguments (the source reads no state other
than `metrics` and mutates nothing), so two successive calls on the same
arguments — in particular on metrics yielding the same count — return
equal outcomes. -/
theorem C6_validate_idempotent (config rc ee : PyVal) (m : List (String × PyVal)) :
    «_validate» config m rc ee = «_validate» config m rc ee :=
  rfl

/-- C8 counterexample: the class's `default_kwarg_values` is not the
six-entry mapping the claim lists — it also maps `query` to the fixed
class-level query template, which the claim's word `exactly` excludes. -/
theorem C8_defaults_counterexample :
    default_kwarg_values ≠ specDefaultKwargValues ∧
    default_kwarg_values.lookup "query" = some (PyVal.str query) ∧
    specDefaultKwargValues.lookup "query" = Option.none := by
  refine ⟨?_, rfl, rfl⟩
  intro h
  have hlen := congrArg List.length h
  simp [default_kwarg_values, specDefaultKwargValues] at hlen

/-- C8 amended: the defaults are the six listed values plus
`query = the fixed class-level SQL template`, and those seven keys are
exactly the keys of `default_kwarg_values`. -/
theorem C8_defaults_amended :
    default_kwarg_values.map Prod.fst =
      ["result_format", "include_config", "catch_exceptions", "meta",
       "template_dict", "expression", "query"] ∧
    default_kwarg_values.lookup "result_format" = some (PyVal.str "BASIC") ∧
    default_kwarg_values.lookup "include_config" = some (PyVal.bool true) ∧
    default_kwarg_values.lookup "catch_exceptions" = some (PyVal.bool false) ∧
    default_kwarg_values.lookup "meta" = some PyVal.none ∧
    default_kwarg_values.lookup "template_dict" = some PyVal.none ∧
    default_kwarg_values.lookup "expression" = some PyVal.none ∧
    default_kwarg_values.lookup "query" = some (PyVal.str query) :=
  ⟨rfl, rfl, rfl, rfl, rfl, rfl, rfl, rfl⟩

/-- C10: two-run noninterference of `_validate`: the outcome depends only
on the scalar extracted from the metrics mapping under
`query.template_values`; any two calls whose metrics yield the same
extraction result return identical outcomes, whatever the
`configuration`, `runtime_configuration` and `execution_engine`
arguments are. -/
theorem C10_validate_noninterference (c₁ c₂ rc₁ rc₂ ee₁ ee₂ : PyVal)
    (m₁ m₂ : List (String × PyVal))
    (h : extractCount m₁ = extractCount m₂) :
    «_validate» c₁ m₁ rc₁ ee₁ = «_validate» c₂ m₂ rc₂ ee₂ := by
  unfold «_validate»
  rw [h]

/-- C10 witness: two calls with different configurations, runtime
configurations, execution engines and differently shaped metrics dicts
that extract the same count return the same outcome. -/
theorem C10_validate_noninterference_witness :
    «_validate» PyVal.none
        [("query.template_values", PyVal.list [PyVal.dict [("a", PyVal.int 5)]])]
        PyVal.none PyVal.none =
      «_validate» (PyVal.dict [("kwargs", PyVal.none)])
        [("query.template_values",
          PyVal.list [PyVal.dict [("b", PyVal.int 5), ("c", PyVal.int 9)]])]
        (PyVal.dict [("styling", PyVal.str "s")]) (PyVal.str "engine") :=
  C10_validate_noninterference PyVal.none (PyVal.dict [("kwargs", PyVal.none)])
    PyVal.none (PyVal.dict [("styling", PyVal.str "s")]) PyVal.none (PyVal.str "engine")
    [("query.template_values", PyVal.list [PyVal.dict [("a", PyVal.int 5)]])]
    [("query.template_values",
      PyVal.list [PyVal.dict [("b", PyVal.int 5), ("c", PyVal.int 9)]])]
    rfl

/-- C1: for every non-negative integer count `n` read by `_validate` from
the metrics mapping, the returned outcome has `success = true` iff
`n = 0`, and for `n > 0` the `observed_value` string textually contains
the decimal representation of `n`. -/
theorem C1_evaluate_success_iff_zero (config rc ee : PyVal)
    (m : List (String × PyVal)) (n : Int)
    (hm : extractCount m = Except.ok (PyVal.int n)) (hn : 0 ≤ n) :
    ∃ r, «_validate» config m rc ee = Except.ok r ∧
      (r.success = true ↔ n = 0) ∧
      (0 < n → ∃ s t, r.observed_value = s ++ toString n ++ t) := by
  refine ⟨validateResultOf (PyVal.int n), ?_, ?_, ?_⟩
  · unfold «_validate»
    rw [hm]
    rfl
  · by_cases h0 : n = 0
    · subst h0
      simp [validateResultOf, pyEqZero]
    · simp [validateResultOf, pyEqZero, h0]
  · intro hpos
    have h0 : n ≠ 0 := by omega
    refine ⟨"bad records count: ", "", ?_⟩
    simp [validateResultOf, pyEqZero, h0, pyStr]

/-- C1 witness: at count 7 the outcome is a failure whose observed value
contains `7`. -/
theorem C1_evaluate_success_iff_zero_witness :
    ∃ r, «_validate» PyVal.none
        [("query.template_values", PyVal.list [PyVal.dict [("count", PyVal.int 7)]])]
        PyVal.none PyVal.none = Except.ok r ∧
      (r.success = true ↔ (7 : Int) = 0) ∧
      ((0 : Int) < 7 → ∃ s t, r.observed_value = s ++ toString (7 : Int) ++ t) :=
  C1_evaluate_success_iff_zero PyVal.none PyVal.none PyVal.none
    [("query.template_values", PyVal.list [PyVal.dict [("count", PyVal.int 7)]])]
    7 rfl (by decide)

/-- C3 counterexample: at count 0 the info string produced by the code is
`The table matches the logical expression`, not the claim's
`table matches the logical expression`. -/
theorem C3_outcome_strings_counterexample :
    ¬ ((validateResultOf (PyVal.int 0)).info = "table matches the logical expression") := by
  decide

/-- C3 amended: count 0 gives `success = true`,
`info = "The table matches the logical expression"` and the fixed
`observed_value = "matches logical expression"`; every count `n > 0`
gives `success = false`,
`info = "The table does not match the logical expression"` and
`observed_value = "bad records count: <n>"` embedding the literal
count. -/
theorem C3_outcome_strings_amended (n : Int) (hn : 0 < n) :
    validateResultOf (PyVal.int 0) =
      { success := true
        info := "The table matches the logical expression"
        observed_value := "matches logical expression" } ∧
    validateResultOf (PyVal.int n) =
      { success := false
        info := "The table does not match the logical expression"
        observed_value := "bad records count: " ++ toString n } := by
  constructor
  · rfl
  · have h0 : n ≠ 0 := by omega
    simp [validateResultOf, pyEqZero, h0, pyStr]

/-- C3 witness: the amended outcome strings at count 7. -/
theorem C3_outcome_strings_amended_witness :
    validateResultOf (PyVal.int 0) =
      { success := true
        info := "The table matches the logical expression"
        observed_value := "matches logical expression" } ∧
    validateResultOf (PyVal.int 7) =
      { success := false
        info := "The table does not match the logical expression"
        observed_value := "bad records count: " ++ toString (7 : Int) } :=
  C3_outcome_strings_amended 7 (by decide)

/-- C9: when the configuration's kwargs lack `template_dict` or map it to
`None`, `validate_configuration` raises `TypeError` (subscripting the
`None` returned by `.get` outside the `try` block), an exception that is
not an `InvalidExpectationConfigurationError` — it never reaches the
field assertions. -/
theorem C9_none_template_dict_typeerror (kwargs : List (String × PyVal))
    (h : kwargs.lookup "template_dict" = Option.none ∨
         kwargs.lookup "template_dict" = some PyVal.none) :
    validate_configuration (PyVal.dict [("kwargs", PyVal.dict kwargs)]) =
      Except.error PyErr.typeError ∧
    ∀ msg, PyErr.typeError ≠ PyErr.invalidExpectationConfigurationError msg := by
  constructor
  · have hget : dictGet kwargs "template_dict" = PyVal.none := by
      cases h with
      | inl h1 => simp [dictGet, h1]
      | inr h1 => simp [dictGet, h1]
    unfold validate_configuration
    simp [pySubscript, pyGet, hget, List.lookup, bind, Except.bind]
  · intro msg hmsg
    exact PyErr.noConfusion hmsg

/-- C9 witness: kwargs without `template_dict` give `TypeError`. -/
theorem C9_none_template_dict_typeerror_witness :
    validate_configuration (PyVal.dict [("kwargs", PyVal.dict [])]) =
      Except.error PyErr.typeError ∧
    ∀ msg, PyErr.typeError ≠ PyErr.invalidExpectationConfigurationError msg :=
  C9_none_template_dict_typeerror [] (Or.inl rfl)

/-- C2 counterexample: a configuration whose `template_dict` lacks the
`column_list` key makes `validate_configuration` raise `KeyError`
(subscripting outside the `try` block), not the
`InvalidExpectationConfigurationError` the claim requires for the
`missing` case. -/
theorem C2_config_validation_counterexample :
    validate_configuration (PyVal.dict [("kwargs", PyVal.dict [("template_dict",
      PyVal.dict [("expression", PyVal.str "col1>0")])])]) =
      Except.error (PyErr.keyError "column_list") ∧
    ∀ msg, PyErr.keyError "column_list" ≠ PyErr.invalidExpectationConfigurationError msg :=
  ⟨rfl, fun _ hmsg => PyErr.noConfusion hmsg⟩

/-- C2 amended: when `template_dict` carries both keys, a `column_list`
or `expression` value that is `None`, not a string, or an empty string
makes `validate_configuration` fail with an
`InvalidExpectationConfigurationError` whose message is that of the first
failed assertion; a key that is altogether missing instead escapes as a
`KeyError` raised outside the `try` block. -/
theorem C2_config_validation_amended (kwargs d : List (String × PyVal)) (cl ex : PyVal)
    (hk : kwargs.lookup "template_dict" = some (PyVal.dict d))
    (hc : d.lookup "column_list" = some cl)
    (he : d.lookup "expression" = some ex)
    (hbad : isNone cl = true ∨ isNonemptyStr cl = false ∨
            isNone ex = true ∨ isNonemptyStr ex = false) :
    validate_configuration (PyVal.dict [("kwargs", PyVal.dict kwargs)]) =
      Except.error (PyErr.invalidExpectationConfigurationError
        (if isNone cl then "column list must be specified"
         else if isNone ex then "logical expression must be specified"
         else if !(isNonemptyStr cl) then "column list must be string"
         else "logical expression must be a string")) := by
  have hget : dictGet kwargs "template_dict" = PyVal.dict d := by
    simp [dictGet, hk]
  unfold validate_configuration
  simp only [pySubscript, pyGet, hget, hc, he, List.lookup, beq_self_eq_true,
    bind, Except.bind]
  by_cases h1 : isNone cl
  · simp [h1]
  · by_cases h2 : isNone ex
    · simp [h1, h2]
    · by_cases h3 : isNonemptyStr cl
      · have h4 : isNonemptyStr ex = false := by
          rcases hbad with hb | hb | hb | hb
          · exact absurd hb (by simp [h1])
          · exact absurd hb (by simp [h3])
          · exact absurd hb (by simp [h2])
          · exact hb
        simp [h1, h2, h3, h4]
      · simp [h1, h2, h3]

/-- C2 witness: a `None` column list yields the
`column list must be specified` configuration error. -/
theorem C2_config_validation_amended_witness :
    validate_configuration (PyVal.dict [("kwargs", PyVal.dict [("template_dict",
      PyVal.dict [("column_list", PyVal.none), ("expression", PyVal.str "col1>0")])])]) =
      Except.error (PyErr.invalidExpectationConfigurationError "column list must be specified") :=
  C2_config_validation_amended
    [("template_dict", PyVal.dict [("column_list", PyVal.none), ("expression", PyVal.str "col1>0")])]
    [("column_list", PyVal.none), ("expression", PyVal.str "col1>0")]
    PyVal.none (PyVal.str "col1>0") rfl rfl rfl (Or.inl rfl)

/-- C7: for a configuration whose `template_dict` has the expression
`col1>0` (and a runtime configuration that is `None` or a dict, as the
framework passes), `_prescriptive_renderer` returns one content block of
type `string_template` whose payload carries the template, the params
mapping and the styling, and whose template text contains the exact
substring `expect table to match the expression col1>0`. -/
theorem C7_renderer_contains_expression (kwargs d : List (String × PyVal)) (rc : PyVal)
    (hk : kwargs.lookup "template_dict" = some (PyVal.dict d))
    (he : d.lookup "expression" = some (PyVal.str "col1>0"))
    (hrc : rc = PyVal.none ∨ ∃ ps, rc = PyVal.dict ps) :
    ∃ st, «_prescriptive_renderer» kwargs rc =
        Except.ok [{ content_block_type := "string_template", string_template := st }] ∧
      st.params = kwargs ∧
      ∃ s t, st.template = s ++ "expect table to match the expression col1>0" ++ t := by
  have hparams : substitute_none_for_missing kwargs ["template_dict"] = kwargs := by
    simp [substitute_none_for_missing, hk]
  obtain ⟨qs, hqs⟩ :
      ∃ qs, (if pyTruthy rc then rc else PyVal.dict []) = PyVal.dict qs := by
    rcases hrc with h | ⟨ps, h⟩
    · subst h
      exact ⟨[], rfl⟩
    · subst h
      by_cases hps : pyTruthy (PyVal.dict ps)
      · exact ⟨ps, by simp [hps]⟩
      · exact ⟨[], by simp [hps]⟩
  refine ⟨{ template := "expect table to match the expression col1>0 "
            params := kwargs
            styling := dictGet qs "styling" }, ?_, rfl, "", " ", rfl⟩
  unfold «_prescriptive_renderer»
  rw [hqs]
  have hget : dictGet kwargs "template_dict" = PyVal.dict d := by
    simp [dictGet, hk]
  simp [pyGet, hparams, hget, pySubscript, he, pyStr, bind, Except.bind, pure, Except.pure]

/-- C7 witness: the renderer evaluated on a concrete configuration with
expression `col1>0` and runtime configuration `None`. -/
theorem C7_renderer_contains_expression_witness :
    ∃ st, «_prescriptive_renderer»
        [("template_dict", PyVal.dict [("column_list", PyVal.str "col1"),
          ("expression", PyVal.str "col1>0")])] PyVal.none =
        Except.ok [{ content_block_type := "string_template", string_template := st }] ∧
      st.params = [("template_dict", PyVal.dict [("column_list", PyVal.str "col1"),
        ("expression", PyVal.str "col1>0")])] ∧
      ∃ s t, st.template = s ++ "expect table to match the expression col1>0" ++ t :=
  C7_renderer_contains_expression
    [("template_dict", PyVal.dict [("column_list", PyVal.str "col1"),
      ("expression", PyVal.str "col1>0")])]
    [("column_list", PyVal.str "col1"), ("expression", PyVal.str "col1>0")]
    PyVal.none rfl rfl (Or.inl rfl)
